import Mathlib

/-!
Shallow embedding of the SkillSwap client (src/frontend/src/App.js) and
verification of its specification claims.

The repository is a single React file containing two stylistic variants of
the same application (a basic layout and a styled layout); the logic modelled
here is character-for-character identical between the two variants, and each
definition below notes the line ranges of both copies.

State updates (React useState setters, localStorage) are modelled by explicit
state passing; network calls (axios) are modelled by an outcome parameter
(success with a response value, or failure) plus an explicit effect trace
recording which HTTP requests, alert dialogs and console messages the code
emits on that path.
-/

/-! ## Swap-request status and the SwapRequestCard action logic (App.js 440-505, 1485-1564) -/

/-- The five SwapRequest status values (spec §4.2, used as string literals
throughout App.js). -/
inductive Status where
  | pending
  | accepted
  | rejected
  | completed
  | cancelled
deriving DecidableEq, Repr

/-- The role under which a SwapRequestCard is rendered: `type="incoming"`
(viewer is the target user, incoming-requests tab) or `type="outgoing"`
(viewer is the requester, my-requests tab). -/
inductive CardType where
  | incoming
  | outgoing
deriving DecidableEq, Repr

/-- The action buttons a SwapRequestCard can offer. -/
inductive CardAction where
  | accept
  | reject
  | cancelRequest
  | markCompleted
deriving DecidableEq, Repr

/-- The action buttons rendered by SwapRequestCard (App.js 468-503 and
identically 1526-1561): Accept and Reject when `type === incoming` and
`status === pending`; Cancel Request when `type === outgoing` and
`status === pending`; Mark as Completed whenever `status === accepted`,
for either card type. The three conditional blocks appear in this order
in the JSX. -/
def offeredActions (type : CardType) (status : Status) : List CardAction :=
  (if type = CardType.incoming ∧ status = Status.pending then
    [CardAction.accept, CardAction.reject] else []) ++
  (if type = CardType.outgoing ∧ status = Status.pending then
    [CardAction.cancelRequest] else []) ++
  (if status = Status.accepted then [CardAction.markCompleted] else [])

/-- The transition table of spec §4.2, transcribed from the specification
text: pending + target user (incoming) allows accept and reject; pending +
requester (outgoing) allows cancel; accepted allows mark-complete for either
party; the terminal states rejected, completed and cancelled allow nothing. -/
def specTransitionActions (type : CardType) (status : Status) : List CardAction :=
  match status, type with
  | Status.pending, CardType.incoming => [CardAction.accept, CardAction.reject]
  | Status.pending, CardType.outgoing => [CardAction.cancelRequest]
  | Status.accepted, _ => [CardAction.markCompleted]
  | _, _ => []

/-- A status is terminal per spec §4.2. -/
def isTerminal (status : Status) : Bool :=
  match status with
  | Status.rejected => true
  | Status.completed => true
  | Status.cancelled => true
  | _ => false

/-- C1: For every SwapRequest status value and every viewing role, the action
set the SwapRequestCard offers is exactly the transition set of the spec §4.2
table; in particular a request in a terminal state offers no action at all. -/
theorem swapRequestCard_actions_match_spec_table :
    ∀ (type : CardType) (status : Status),
      offeredActions type status = specTransitionActions type status ∧
      (isTerminal status = true → offeredActions type status = []) := by
  intro type status
  cases type <;> cases status <;> exact ⟨rfl, by decide⟩

/-- Witness for C1: a rejected request is terminal and its incoming card
offers no action. -/
theorem swapRequestCard_actions_match_spec_table_witness :
    offeredActions CardType.incoming Status.rejected =
      specTransitionActions CardType.incoming Status.rejected ∧
    offeredActions CardType.incoming Status.rejected = [] :=
  ⟨(swapRequestCard_actions_match_spec_table CardType.incoming Status.rejected).1,
   (swapRequestCard_actions_match_spec_table CardType.incoming Status.rejected).2 rfl⟩

/-! ## JavaScript string operations used by the skill-list encoding

JS strings are modelled as `List Char`.  `String.prototype.split(',')` with a
one-character separator, `String.prototype.trim()`, `Array.prototype.join(', ')`
and the truthiness filter `filter(s => s)` are each given a direct executable
model. -/

/-- Model of `str.split(',')`: cut at every comma, keeping empty pieces; the
split of the empty string is `[[]]` (JS: `"".split(',')` is `[""]`). -/
def jsSplitComma : List Char → List (List Char)
  | [] => [[]]
  | c :: cs =>
    if c = ',' then [] :: jsSplitComma cs
    else
      match jsSplitComma cs with
      | [] => [[c]]
      | g :: gs => (c :: g) :: gs

/-- Model of `str.trim()`: drop whitespace from both ends.  `Char.isWhitespace`
covers the space, tab, newline and carriage-return characters that can occur in
the free-text skill inputs. -/
def jsTrim (s : List Char) : List Char :=
  ((s.dropWhile Char.isWhitespace).reverse.dropWhile Char.isWhitespace).reverse

/-- Model of `arr.join(', ')` (ProfileModal, App.js 1052-1053):
interleave the separator between the elements. -/
def jsJoinCommaSpace : List (List Char) → List Char
  | [] => []
  | [s] => s
  | s :: s' :: rest => s ++ ',' :: ' ' :: jsJoinCommaSpace (s' :: rest)

/-- The skills transformation of RegisterForm.handleSubmit (App.js 157-161 and
identically 884-888): `split(',').map(s => s.trim()).filter(s => s)` — comma
split, trim each piece, drop empty (falsy) pieces. -/
def registerSubmitSkills (input : List Char) : List (List Char) :=
  ((jsSplitComma input).map jsTrim).filter (fun t => t ≠ [])

/-- The skills transformation of ProfileModal.handleSubmit (App.js 1105-1109):
`split(',').map(s => s.trim()).filter(s => s)`. -/
def profileSubmitSkills (input : List Char) : List (List Char) :=
  ((jsSplitComma input).map jsTrim).filter (fun t => t ≠ [])

/-- C2: for every free-text skills input, the list transmitted at registration
equals the comma split of the input with each piece trimmed and empty pieces
discarded, the profile-edit save applies the same transformation, and on the
input "a, b ,c," both produce exactly ["a", "b", "c"]. -/
theorem submitted_skills_split_trim_drop_empty :
    (∀ input : List Char,
      registerSubmitSkills input =
        ((jsSplitComma input).map jsTrim).filter (fun t => t ≠ []) ∧
      profileSubmitSkills input = registerSubmitSkills input) ∧
    registerSubmitSkills ("a, b ,c,".toList) =
      ["a".toList, "b".toList, "c".toList] := by
  exact ⟨fun input => ⟨rfl, rfl⟩, by decide⟩

/-! ## Round trip of the profile editor skill encoding (C9) -/

lemma jsSplitComma_ne_nil (s : List Char) : jsSplitComma s ≠ [] := by
  induction s with
  | nil => simp [jsSplitComma]
  | cons c cs ih =>
    simp only [jsSplitComma]
    split
    · exact List.cons_ne_nil _ _
    · split
      · exact List.cons_ne_nil _ _
      · exact List.cons_ne_nil _ _

lemma jsSplitComma_no_comma {s : List Char} (h : ',' ∉ s) : jsSplitComma s = [s] := by
  induction s with
  | nil => rfl
  | cons c cs ih =>
    have hc : ¬ c = ',' := fun e => h (e ▸ List.mem_cons_self c cs)
    have hcs : ',' ∉ cs := fun m => h (List.mem_cons_of_mem c m)
    simp [jsSplitComma, hc, ih hcs]

lemma jsSplitComma_append {s : List Char} (t : List Char) (h : ',' ∉ s) :
    jsSplitComma (s ++ ',' :: t) = s :: jsSplitComma t := by
  induction s with
  | nil => simp [jsSplitComma]
  | cons c cs ih =>
    have hc : ¬ c = ',' := fun e => h (e ▸ List.mem_cons_self c cs)
    have hcs : ',' ∉ cs := fun m => h (List.mem_cons_of_mem c m)
    simp [jsSplitComma, hc, ih hcs]

lemma jsTrim_cons_space (s : List Char) : jsTrim (' ' :: s) = jsTrim s := rfl

lemma map_jsTrim_jsSplitComma_space (t : List Char) :
    (jsSplitComma (' ' :: t)).map jsTrim = (jsSplitComma t).map jsTrim := by
  obtain ⟨g, gs, hgs⟩ := List.exists_cons_of_ne_nil (jsSplitComma_ne_nil t)
  simp only [jsSplitComma, hgs]
  rw [if_neg (by decide)]
  simp [jsTrim_cons_space]

lemma splitTrimFilter_join (skills : List (List Char))
    (h : ∀ s ∈ skills, s ≠ [] ∧ jsTrim s = s ∧ ',' ∉ s) :
    ((jsSplitComma (jsJoinCommaSpace skills)).map jsTrim).filter (fun t => t ≠ []) =
      skills := by
  induction skills with
  | nil => rfl
  | cons s rest ih =>
    obtain ⟨hs_ne, hs_trim, hs_comma⟩ := h s (List.mem_cons_self s rest)
    have hrest : ∀ x ∈ rest, x ≠ [] ∧ jsTrim x = x ∧ ',' ∉ x :=
      fun x hx => h x (List.mem_cons_of_mem s hx)
    cases rest with
    | nil =>
      rw [show jsJoinCommaSpace [s] = s from rfl, jsSplitComma_no_comma hs_comma]
      simp [hs_trim, hs_ne]
    | cons s' rest' =>
      rw [show jsJoinCommaSpace (s :: s' :: rest') =
            s ++ ',' :: ' ' :: jsJoinCommaSpace (s' :: rest') from rfl,
          jsSplitComma_append _ hs_comma, List.map_cons,
          map_jsTrim_jsSplitComma_space, hs_trim,
          List.filter_cons_of_pos (by simpa using hs_ne), ih hrest]

/-- C9: for every User whose skill lists contain only non-empty, trimmed,
comma-free labels, loading the profile form (which joins each list with a
comma and a space into the display string, App.js 1052-1053) and submitting
it unmodified (which re-splits on commas, trims, and drops empties,
App.js 1107-1108) yields exactly the original list. -/
theorem profile_skills_roundtrip (skills : List (List Char))
    (h : ∀ s ∈ skills, s ≠ [] ∧ jsTrim s = s ∧ ',' ∉ s) :
    profileSubmitSkills (jsJoinCommaSpace skills) = skills :=
  splitTrimFilter_join skills h

/-- Witness for C9: the skill list ["Guitar", "Cooking"] survives the
display/submit round trip. -/
theorem profile_skills_roundtrip_witness :
    (∀ s ∈ ["Guitar".toList, "Cooking".toList], s ≠ [] ∧ jsTrim s = s ∧ ',' ∉ s) ∧
    profileSubmitSkills (jsJoinCommaSpace ["Guitar".toList, "Cooking".toList]) =
      ["Guitar".toList, "Cooking".toList] :=
  ⟨by decide, profile_skills_roundtrip ["Guitar".toList, "Cooking".toList] (by decide)⟩

/-! ## Session store: AuthProvider (App.js 11-70, identically 716-775) -/

/-- The fields of a User record that the session store and directory logic
inspect.  Remaining fields (email, bio, availability, photo, ratings) do not
influence any verified claim and are elided. -/
structure UserRec where
  id : String
  name : String
deriving DecidableEq, Repr

/-- The session store state: the in-memory `token` and `user` React state of
AuthProvider, plus the durable `localStorage` entry keyed "token". -/
structure AuthState where
  token : Option String
  user : Option UserRec
  storedToken : Option String
deriving DecidableEq, Repr

/-- AuthProvider.logout (App.js 59-63): setToken(null); setUser(null);
localStorage.removeItem("token"). -/
def logout (_st : AuthState) : AuthState :=
  { token := none, user := none, storedToken := none }

/-- AuthProvider.login (App.js 33-44): POST /api/auth/login; on success the
returned access_token is installed via setToken and localStorage.setItem and
the call returns true; the catch block only logs and returns false.  The
network outcome is `some accessToken` (HTTP success) or `none` (any error:
invalid credentials or network failure, both of which make axios throw). -/
def login (st : AuthState) (outcome : Option String) : AuthState × Bool :=
  match outcome with
  | some accessToken =>
    ({ st with token := some accessToken, storedToken := some accessToken }, true)
  | none => (st, false)

/-- AuthProvider.fetchUser (App.js 21-31): GET /api/auth/me; on success the
response body becomes the in-memory user; on any error (rejected token or
network failure alike) the catch block logs and calls logout(). -/
def fetchUser (st : AuthState) (outcome : Option UserRec) : AuthState :=
  match outcome with
  | some u => { st with user := some u }
  | none => logout st

/-- AuthProvider startup (App.js 12-19): token state is initialised from
localStorage.getItem("token"); the effect runs fetchUser whenever a token is
present. -/
def authStartup (stored : Option String) (outcome : Option UserRec) : AuthState :=
  let st : AuthState := { token := stored, user := none, storedToken := stored }
  match stored with
  | some _ => fetchUser st outcome
  | none => st

/-- C7: a failed login (invalid credentials or network error) leaves the
in-memory token, the in-memory user, and the durably stored token untouched,
and returns false to the caller. -/
theorem login_failure_leaves_session_untouched :
    ∀ st : AuthState,
      (login st none).1.token = st.token ∧
      (login st none).1.user = st.user ∧
      (login st none).1.storedToken = st.storedToken ∧
      (login st none).2 = false := by
  intro st
  exact ⟨rfl, rfl, rfl, rfl⟩

/-- C10: every failure of fetchUser, a transient network failure included,
performs a full logout (in-memory user and token set to null, durable token
removed); in particular a single network failure during the automatic startup
refresh discards the persisted session. -/
theorem fetchUser_failure_forces_logout :
    (∀ st : AuthState,
      fetchUser st none = { token := none, user := none, storedToken := none }) ∧
    (∀ tok : String,
      authStartup (some tok) none =
        { token := none, user := none, storedToken := none }) := by
  exact ⟨fun st => rfl, fun tok => rfl⟩

/-! ## Dashboard state, network effects and the swap-request lifecycle manager
(App.js 285-440, identically 1279-1391) -/

/-- The fields of a SwapRequest record the Dashboard logic inspects. -/
structure SwapRequest where
  id : String
  requesterId : String
  targetUserId : String
  requestedSkill : String
  offeredSkill : String
  status : Status
deriving DecidableEq, Repr

/-- The Dashboard React state touched by the modelled operations. -/
structure DashState where
  activeTab : String
  users : List UserRec
  myRequests : List SwapRequest
  incomingRequests : List SwapRequest
  loading : Bool
deriving DecidableEq, Repr

/-- Observable effects of a Dashboard operation, in emission order: the HTTP
requests attempted (axios), the blocking alert dialogs shown, and the
console.error log lines. -/
inductive Effect where
  | apiGetUsers
  | apiSearchUsers (term : String)
  | apiGetMyRequests
  | apiGetIncoming
  | apiCreateSwap (targetUserId requestedSkill offeredSkill : String)
  | apiUpdateSwap (requestId status : String)
  | apiDeleteSwap (requestId : String)
  | alertMsg (msg : String)
  | consoleError (msg : String)
deriving DecidableEq, Repr

/-- fetchUsers (App.js 308-317): GET /api/users; on success the full response
is stored in `users`; on error only a console line is emitted. -/
def fetchUsers (st : DashState) (outcome : Option (List UserRec)) :
    DashState × List Effect :=
  match outcome with
  | some resp =>
    ({ st with users := resp, loading := false }, [Effect.apiGetUsers])
  | none =>
    ({ st with loading := false },
     [Effect.apiGetUsers, Effect.consoleError "Failed to fetch users:"])

/-- fetchMyRequests (App.js 319-328): GET /api/swap-requests/my-requests. -/
def fetchMyRequests (st : DashState) (outcome : Option (List SwapRequest)) :
    DashState × List Effect :=
  match outcome with
  | some resp =>
    ({ st with myRequests := resp, loading := false }, [Effect.apiGetMyRequests])
  | none =>
    ({ st with loading := false },
     [Effect.apiGetMyRequests, Effect.consoleError "Failed to fetch requests:"])

/-- fetchIncomingRequests (App.js 330-339): GET /api/swap-requests/incoming. -/
def fetchIncomingRequests (st : DashState) (outcome : Option (List SwapRequest)) :
    DashState × List Effect :=
  match outcome with
  | some resp =>
    ({ st with incomingRequests := resp, loading := false },
     [Effect.apiGetIncoming])
  | none =>
    ({ st with loading := false },
     [Effect.apiGetIncoming, Effect.consoleError "Failed to fetch incoming requests:"])

/-- searchBySkill (App.js 341-351): if the trimmed search term is empty
(falsy), return immediately with no request and no state change; otherwise
GET /api/users/search/term and store the response in `users`. -/
def searchBySkill (st : DashState) (searchTerm : String)
    (outcome : Option (List UserRec)) : DashState × List Effect :=
  if jsTrim searchTerm.toList = [] then (st, [])
  else
    match outcome with
    | some resp =>
      ({ st with users := resp, loading := false },
       [Effect.apiSearchUsers searchTerm])
    | none =>
      ({ st with loading := false },
       [Effect.apiSearchUsers searchTerm, Effect.consoleError "Search failed:"])

/-- createSwapRequest (App.js 353-365): POST /api/swap-requests; on success an
alert confirms; on error a console line and an alert report failure.  No list
state is touched on either path. -/
def createSwapRequest (st : DashState) (ok : Bool)
    (targetUserId requestedSkill offeredSkill : String) :
    DashState × List Effect :=
  if ok then
    (st, [Effect.apiCreateSwap targetUserId requestedSkill offeredSkill,
          Effect.alertMsg "Swap request sent successfully!"])
  else
    (st, [Effect.apiCreateSwap targetUserId requestedSkill offeredSkill,
          Effect.consoleError "Failed to create swap request:",
          Effect.alertMsg "Failed to send swap request"])

/-- updateSwapRequest (App.js 367-378): PUT /api/swap-requests/id with the new
status; on success the incoming list is re-fetched when the incoming tab is
active and the outgoing (my-requests) list otherwise; on error only a console
line is emitted. -/
def updateSwapRequest (st : DashState) (ok : Bool)
    (refetchOutcome : Option (List SwapRequest)) (requestId status : String) :
    DashState × List Effect :=
  if ok then
    if st.activeTab = "incoming" then
      let (st', effs) := fetchIncomingRequests st refetchOutcome
      (st', Effect.apiUpdateSwap requestId status :: effs)
    else
      let (st', effs) := fetchMyRequests st refetchOutcome
      (st', Effect.apiUpdateSwap requestId status :: effs)
  else
    (st, [Effect.apiUpdateSwap requestId status,
          Effect.consoleError "Failed to update swap request:"])

/-- deleteSwapRequest (App.js 380-387): DELETE /api/swap-requests/id; on
success the outgoing (my-requests) list is re-fetched; on error only a console
line is emitted. -/
def deleteSwapRequest (st : DashState) (ok : Bool)
    (refetchOutcome : Option (List SwapRequest)) (requestId : String) :
    DashState × List Effect :=
  if ok then
    let (st', effs) := fetchMyRequests st refetchOutcome
    (st', Effect.apiDeleteSwap requestId :: effs)
  else
    (st, [Effect.apiDeleteSwap requestId,
          Effect.consoleError "Failed to delete swap request:"])

/-- JS truthiness of a `prompt` result: null is falsy, a string is truthy
exactly when non-empty. -/
def jsTruthy (s : Option String) : Bool :=
  match s with
  | none => false
  | some str => str ≠ ""

/-- The Request Skill Swap button of UserCard (App.js 425-436, identically
1470-1481): two prompts collect the skills; createSwapRequest is invoked only
when both results are truthy (non-null and non-empty), otherwise nothing
happens. -/
def userCardRequestClick (st : DashState) (ok : Bool) (targetUser : UserRec)
    (requestedSkill offeredSkill : Option String) : DashState × List Effect :=
  if jsTruthy requestedSkill && jsTruthy offeredSkill then
    createSwapRequest st ok targetUser.id
      (requestedSkill.getD "") (offeredSkill.getD "")
  else
    (st, [])

/-- The browse tab rendering (App.js 604, identically 1720): the fetched
`users` state is filtered client-side with `u.id !== user?.id` before cards
are rendered. -/
def browseRendered (st : DashState) (sessionUser : UserRec) : List UserRec :=
  st.users.filter (fun u => u.id ≠ sessionUser.id)

/-- An effect trace contains a blocking alert dialog. -/
def hasAlert (effs : List Effect) : Bool :=
  effs.any (fun e =>
    match e with
    | Effect.alertMsg _ => true
    | _ => false)

/-- An effect trace contains a re-fetch of either swap-request list. -/
def refetchesRequestList (effs : List Effect) : Bool :=
  effs.any (fun e =>
    decide (e = Effect.apiGetMyRequests) || decide (e = Effect.apiGetIncoming))

/-- A concrete Dashboard state on the browse tab, used by concrete instances. -/
def sampleState : DashState :=
  { activeTab := "browse", users := [], myRequests := [], incomingRequests := [],
    loading := false }

/-- A concrete Dashboard state on the incoming tab. -/
def sampleIncomingState : DashState :=
  { activeTab := "incoming", users := [], myRequests := [], incomingRequests := [],
    loading := false }

lemma jsTruthy_getD_ne_empty {s : Option String} (h : jsTruthy s = true) :
    s.getD "" ≠ "" := by
  cases s with
  | none => simp [jsTruthy] at h
  | some str => simpa [jsTruthy, Option.getD] using h

/-- C3: the browse tab stores the full backend response unfiltered and the
rendered directory list is a client-side filter of it that contains no entry
whose id equals the session user's id. -/
theorem directory_excludes_session_user :
    ∀ (st : DashState) (resp : List UserRec) (sessionUser u : UserRec),
      (fetchUsers st (some resp)).1.users = resp ∧
      (u ∈ browseRendered (fetchUsers st (some resp)).1 sessionUser →
        u.id ≠ sessionUser.id) := by
  intro st resp sessionUser u
  refine ⟨rfl, fun hm => ?_⟩
  have h := List.mem_filter.mp hm
  simpa using h.2

/-- Witness for C3: with a session user u1 and a backend response containing
u1 and u2, the stored list is the full response and the rendered entry u2 has
an id distinct from u1. -/
theorem directory_excludes_session_user_witness :
    (fetchUsers sampleState
        (some [⟨"u1", "Alice"⟩, ⟨"u2", "Bob"⟩])).1.users =
      [⟨"u1", "Alice"⟩, ⟨"u2", "Bob"⟩] ∧
    (⟨"u2", "Bob"⟩ : UserRec).id ≠ (⟨"u1", "Alice"⟩ : UserRec).id :=
  ⟨(directory_excludes_session_user sampleState
      [⟨"u1", "Alice"⟩, ⟨"u2", "Bob"⟩] ⟨"u1", "Alice"⟩ ⟨"u2", "Bob"⟩).1,
   (directory_excludes_session_user sampleState
      [⟨"u1", "Alice"⟩, ⟨"u2", "Bob"⟩] ⟨"u1", "Alice"⟩ ⟨"u2", "Bob"⟩).2
     (by decide)⟩

/-- Counterexample to C4 as stated: a successful createSwapRequest emits no
re-fetch of either request list — its effect trace is only the POST and the
confirmation alert. -/
theorem create_no_refetch_counterexample :
    refetchesRequestList
      ((createSwapRequest sampleState true "u2" "Guitar" "Spanish").2) = false := by
  rfl

/-- C4 (amended): after a successful transition, the manager re-fetches the
incoming list when the incoming tab is active and the outgoing list otherwise,
and after a successful cancel it re-fetches the outgoing list, installing the
fresh server snapshot rather than patching local state; after create, however,
no list re-fetch occurs. -/
theorem mutation_refetch_policy :
    ∀ (st : DashState) (fresh : List SwapRequest) (requestId status : String),
      (st.activeTab = "incoming" →
        (updateSwapRequest st true (some fresh) requestId status).1.incomingRequests
            = fresh ∧
        Effect.apiGetIncoming ∈
          (updateSwapRequest st true (some fresh) requestId status).2) ∧
      (st.activeTab ≠ "incoming" →
        (updateSwapRequest st true (some fresh) requestId status).1.myRequests
            = fresh ∧
        Effect.apiGetMyRequests ∈
          (updateSwapRequest st true (some fresh) requestId status).2) ∧
      ((deleteSwapRequest st true (some fresh) requestId).1.myRequests = fresh ∧
        Effect.apiGetMyRequests ∈
          (deleteSwapRequest st true (some fresh) requestId).2) ∧
      (∀ target rs os : String,
        refetchesRequestList ((createSwapRequest st true target rs os).2) = false) := by
  intro st fresh requestId status
  refine ⟨fun h => ?_, fun h => ?_, ⟨?_, ?_⟩, fun target rs os => ?_⟩
  · simp [updateSwapRequest, fetchIncomingRequests, h]
  · simp [updateSwapRequest, fetchMyRequests, h]
  · simp [deleteSwapRequest, fetchMyRequests]
  · simp [deleteSwapRequest, fetchMyRequests]
  · rfl

/-- Witness for C4 (amended): on the incoming tab, a successful accept
re-fetches the incoming list, and a successful cancel re-fetches the outgoing
list. -/
theorem mutation_refetch_policy_witness :
    Effect.apiGetIncoming ∈
      (updateSwapRequest sampleIncomingState true (some []) "r1" "accepted").2 ∧
    Effect.apiGetMyRequests ∈
      (deleteSwapRequest sampleIncomingState true (some []) "r1").2 :=
  ⟨((mutation_refetch_policy sampleIncomingState [] "r1" "accepted").1 rfl).2,
   (mutation_refetch_policy sampleIncomingState [] "r1" "accepted").2.2.1.2⟩

/-- C5: the Request Skill Swap flow issues no creation request when either
prompted skill string is empty (the whole click is a no-op), and any POST it
does issue carries two non-empty skill strings. -/
theorem create_requires_nonempty_skills :
    ∀ (st : DashState) (ok : Bool) (targetUser : UserRec)
      (requestedSkill offeredSkill : Option String),
      ((requestedSkill = some "" ∨ offeredSkill = some "") →
        userCardRequestClick st ok targetUser requestedSkill offeredSkill
          = (st, [])) ∧
      (∀ t rs os : String,
        Effect.apiCreateSwap t rs os ∈
            (userCardRequestClick st ok targetUser requestedSkill offeredSkill).2 →
          rs ≠ "" ∧ os ≠ "") := by
  intro st ok targetUser requestedSkill offeredSkill
  constructor
  · rintro (rfl | rfl)
    · simp [userCardRequestClick, jsTruthy]
    · simp [userCardRequestClick, jsTruthy]
  · intro t rs os hmem
    unfold userCardRequestClick createSwapRequest at hmem
    split at hmem
    case isTrue hc =>
      rw [Bool.and_eq_true] at hc
      obtain ⟨hr, ho⟩ := hc
      split at hmem <;> simp at hmem <;>
        exact ⟨hmem.2.1 ▸ jsTruthy_getD_ne_empty hr,
               hmem.2.2 ▸ jsTruthy_getD_ne_empty ho⟩
    case isFalse => simp at hmem

/-- Witness for C5: an empty requested skill makes the click a no-op. -/
theorem create_requires_nonempty_skills_witness :
    userCardRequestClick sampleState true ⟨"u2", "Bob"⟩ (some "") (some "Guitar")
      = (sampleState, []) :=
  (create_requires_nonempty_skills sampleState true ⟨"u2", "Bob"⟩
      (some "") (some "Guitar")).1 (Or.inl rfl)

/-- Counterexample to C6 as stated: a failed updateSwapRequest leaves state
unchanged but surfaces no blocking notification at all — its effect trace has
no alert dialog, only a console line. -/
theorem failed_update_no_notification_counterexample :
    (updateSwapRequest sampleState false (some []) "r1" "accepted").1
        = sampleState ∧
    hasAlert ((updateSwapRequest sampleState false (some []) "r1" "accepted").2)
        = false := ⟨rfl, rfl⟩

/-- C6 (amended): every failed mutation leaves the triggering view's state
unchanged; a failed create surfaces a blocking alert, but failed transition
and cancel calls only log to the console with no user-visible notification. -/
theorem failure_frame_and_notifications :
    ∀ (st : DashState) (refetchOutcome : Option (List SwapRequest))
      (target rs os requestId status : String),
      ((createSwapRequest st false target rs os).1 = st ∧
        hasAlert ((createSwapRequest st false target rs os).2) = true) ∧
      ((updateSwapRequest st false refetchOutcome requestId status).1 = st ∧
        hasAlert ((updateSwapRequest st false refetchOutcome requestId status).2)
          = false) ∧
      ((deleteSwapRequest st false refetchOutcome requestId).1 = st ∧
        hasAlert ((deleteSwapRequest st false refetchOutcome requestId).2)
          = false) := by
  intro st refetchOutcome target rs os requestId status
  exact ⟨⟨rfl, rfl⟩, ⟨rfl, rfl⟩, ⟨rfl, rfl⟩⟩

/-- C8: invoking searchBySkill with the empty search term performs no network
call, emits nothing, and leaves the whole Dashboard state — the displayed
user list included — unchanged, whatever it was. -/
theorem searchBySkill_empty_noop :
    ∀ (st : DashState) (outcome : Option (List UserRec)),
      searchBySkill st "" outcome = (st, []) := by
  intro st outcome
  rfl
